import Mathlib

/-!
Verification of the dummyfs virtual filesystem (src/dummyvfs.c).

Shallow embedding conventions:
* `atomic_t` cells are 32-bit signed integers; every store goes through
  `wrap32`, the reduction of an `Int` into `[-2^31, 2^31)` by two's-complement
  wrap, matching `atomic_inc`, the `int` decrement `v -= 1`, and the implicit
  `long` to `int` conversion in `atomic_set(counter, simple_strtol(...))`.
* `copy_to_user` / `copy_from_user` outcomes are an explicit `copyFault` flag;
  a copy of zero bytes never faults (the kernel primitives return 0 there).
* `loff_t *offset` is a `Nat` passed in and returned in the result record
  (the VFS hands the handlers a non-negative position).
* errno values are the negative return codes of the C functions.
-/

/-- errno 14, returned as -EFAULT by the handlers on a failed user copy. -/
def EFAULT : Int := 14

/-- errno 22, returned as -EINVAL by dfs_write_file. -/
def EINVAL : Int := 22

/-- errno 12, returned as -ENOMEM by dfs_fill_super. -/
def ENOMEM : Int := 12

/-- TMPSIZE from dummyvfs.c line 41: capacity of the on-stack buffer. -/
def TMPSIZE : Nat := 20

/-- LFS_MAGIC from dummyvfs.c line 10. -/
def LFS_MAGIC : Nat := 0x11223344

/-- Two's-complement reduction into the 32-bit signed range
`[-2147483648, 2147483648)`; 2147483648 = 2^31 and 4294967296 = 2^32. -/
def wrap32 (x : Int) : Int := (x + 2147483648) % 4294967296 - 2147483648

/-- The 32-bit signed range of an `atomic_t` value. -/
def InRange32 (x : Int) : Prop := -2147483648 ≤ x ∧ x < 2147483648

instance (x : Int) : Decidable (InRange32 x) := by
  unfold InRange32; infer_instance

/-- `snprintf(tmp, TMPSIZE, "%d\n", v)`: decimal text of the value followed by
a newline.  A 32-bit `int` needs at most 11 characters plus the newline, so the
20-byte buffer never truncates and `len` is the full serialized length. -/
def serialize (v : Int) : List Char := (toString v).data ++ ['\n']

/-- The value the read encodes (dummyvfs.c lines 51-55): the cell itself at
offset 0, the `int` decrement of the cell on a continuation read. -/
def servedValue (cell : Int) (offset : Nat) : Int :=
  if 0 < offset then wrap32 (cell - 1) else cell

/-- The cell after the read (dummyvfs.c lines 52-55): `atomic_inc` at offset 0
(wrapping at INT_MAX), untouched on a continuation read. -/
def postCell (cell : Int) (offset : Nat) : Int :=
  if 0 < offset then cell else wrap32 (cell + 1)

/-- Result of dfs_read_file: the ssize_t return value (byte count or negative
errno), the bytes copied to the user buffer, the cell after the call, and the
file position after the call. -/
structure ReadResult where
  ret : Int
  data : List Char
  cell : Int
  offset : Nat
  deriving DecidableEq, Repr

/-- dfs_read_file (dummyvfs.c lines 43-71) as a function of the backing cell,
the request size `count`, the file position `*offset`, and whether the copy to
the user buffer faults. -/
def dfs_read_file (cell : Int) (count offset : Nat) (copyFault : Bool) : ReadResult :=
  let v := servedValue cell offset
  let cell1 := postCell cell offset
  let s := serialize v
  if s.length < offset then
    ⟨0, [], cell1, offset⟩
  else
    let cnt := min count (s.length - offset)
    if copyFault ∧ cnt ≠ 0 then
      ⟨-EFAULT, [], cell1, offset⟩
    else
      ⟨(cnt : Int), (s.drop offset).take cnt, cell1, offset + cnt⟩

/-- Digit accumulation of the kernel's `_parse_integer` at base 10: consume
decimal digits, stop at the first non-digit.  With at most 19 input bytes the
accumulated value stays below 10^19 < 2^64, so the unsigned long long
arithmetic never wraps and plain `Nat` arithmetic is exact. -/
def parseDigits : List Char → Nat → Nat
  | [], acc => acc
  | c :: cs, acc =>
    if '0' ≤ c ∧ c ≤ '9' then parseDigits cs (10 * acc + (c.toNat - 48)) else acc

/-- `simple_strtol(tmp, NULL, 10)` on the zero-filled buffer: a leading '-'
negates the digit run that follows; parsing stops at the first non-digit (in
particular at the NUL padding), so only the copied input bytes matter. -/
def simple_strtol (s : List Char) : Int :=
  match s with
  | '-' :: rest => -(parseDigits rest 0 : Int)
  | _ => (parseDigits s 0 : Int)

/-- Result of dfs_write_file: return value, the cell after the call, and the
file position (which the handler never writes through). -/
structure WriteResult where
  ret : Int
  cell : Int
  offset : Nat
  deriving DecidableEq, Repr

/-- dfs_write_file (dummyvfs.c lines 74-96).  `atomic_set(counter,
simple_strtol(tmp, NULL, 10))` converts the parsed `long` to `int`; with at
most 19 digits the two reductions (mod 2^64 then mod 2^32) collapse to the
single `wrap32`. -/
def dfs_write_file (cell : Int) (input : List Char) (offset : Nat) (copyFault : Bool) :
    WriteResult :=
  if offset ≠ 0 then ⟨-EINVAL, cell, offset⟩
  else if TMPSIZE ≤ input.length then ⟨-EINVAL, cell, offset⟩
  else if copyFault ∧ input ≠ [] then ⟨-EFAULT, cell, offset⟩
  else ⟨(input.length : Int), wrap32 (simple_strtol input), offset⟩

/-- Identity of the two file-scope cells `static atomic_t counter, subcounter`
(dummyvfs.c line 172). -/
inductive CellId where
  | counter
  | subcounter
  deriving DecidableEq, Repr

/-- The mutable state of the module: the two file-scope atomic cells. -/
structure FSState where
  counter : Int
  subcounter : Int
  deriving DecidableEq, Repr

/-- atomic_read on one of the two cells. -/
def getCell (fs : FSState) : CellId → Int
  | CellId.counter => fs.counter
  | CellId.subcounter => fs.subcounter

/-- atomic_set on one of the two cells. -/
def setCell (fs : FSState) : CellId → Int → FSState
  | CellId.counter, v => { fs with counter := v }
  | CellId.subcounter, v => { fs with subcounter := v }

/-- dfs_read_file invoked through a file handle whose `private_data` points at
cell `c` (bound by dfs_open from `inode->i_private`). -/
def dfs_read_fs (fs : FSState) (c : CellId) (count offset : Nat) (copyFault : Bool) :
    ReadResult × FSState :=
  let r := dfs_read_file (getCell fs c) count offset copyFault
  (r, setCell fs c r.cell)

/-- dfs_write_file invoked through a file handle bound to cell `c`. -/
def dfs_write_fs (fs : FSState) (c : CellId) (input : List Char) (offset : Nat)
    (copyFault : Bool) : WriteResult × FSState :=
  let r := dfs_write_file (getCell fs c) input offset copyFault
  (r, setCell fs c r.cell)

/-- One I/O request issued against a counter file. -/
inductive Op where
  | read (count offset : Nat) (copyFault : Bool)
  | write (input : List Char) (offset : Nat) (copyFault : Bool)

/-- Effect of one request, issued through a handle bound to the given cell, on
the module state. -/
def applyOp (fs : FSState) : CellId × Op → FSState
  | (c, Op.read count offset cf) => (dfs_read_fs fs c count offset cf).2
  | (c, Op.write input offset cf) => (dfs_write_fs fs c input offset cf).2

/-- Effect of a sequence of requests, each tagged with the cell its handle is
bound to. -/
def runOps (fs : FSState) (ops : List (CellId × Op)) : FSState :=
  ops.foldl applyOp fs

/-- S_IFDIR bit of an inode mode. -/
def S_IFDIR : Nat := 0o40000

/-- S_IFREG bit of an inode mode. -/
def S_IFREG : Nat := 0o100000

/-- The file_operations table an inode is created with. -/
inductive Fops where
  | dummyfsFileOps
  | simpleDirOps
  deriving DecidableEq, Repr

/-- The modelled fields of a `struct inode`: `i_mode`, `i_fop`, `i_ino`, and
`i_private` (the bound cell, for counter files). -/
structure Inode where
  mode : Nat
  fops : Fops
  ino : Nat
  priv : Option CellId
  deriving DecidableEq, Repr

/-- A hashed dentry with its inode and the hashed dentries below it: the part
of the dcache tree that path lookup can reach. -/
inductive DTree where
  | node (name : String) (inode : Inode) (children : List DTree)

/-- Allocator state threaded through tree construction: `tick` indexes the
allocation sites in program order (the environment decides which succeed), and
`nextIno` models the monotone `get_next_ino` counter. -/
structure BuildM where
  tick : Nat
  nextIno : Nat

/-- One allocation attempt: consult the environment at the current tick. -/
def newAlloc (env : Nat → Bool) (s : BuildM) : Bool × BuildM :=
  (env s.tick, { s with tick := s.tick + 1 })

/-- dummyfs_make_inode (dummyvfs.c lines 18-32): `new_inode` may fail; on
success the mode, fops and a fresh `get_next_ino` number are set. -/
def dummyfs_make_inode (env : Nat → Bool) (s : BuildM) (mode : Nat) (fops : Fops) :
    Option Inode × BuildM :=
  let (ok, s1) := newAlloc env s
  if ok then
    (some ⟨mode, fops, s1.nextIno, none⟩, { s1 with nextIno := s1.nextIno + 1 })
  else
    (none, s1)

/-- Children contributed by an optional dentry. -/
def optChildren : Option DTree → List DTree
  | some t => [t]
  | none => []

/-- dummyfs_create_file (dummyvfs.c lines 143-168): allocate a dentry
(`d_alloc_name`), then an inode; on inode failure the dentry is dput and
nothing is published; on success `i_private` is bound and `d_add` hashes the
dentry. -/
def dummyfs_create_file (env : Nat → Bool) (s : BuildM) (name : String) (cell : CellId) :
    Option DTree × BuildM :=
  let (dok, s1) := newAlloc env s
  if dok then
    match dummyfs_make_inode env s1 (S_IFREG ||| 0o644) Fops.dummyfsFileOps with
    | (some ino, s2) => (some (DTree.node name { ino with priv := some cell } []), s2)
    | (none, s2) => (none, s2)
  else
    (none, s1)

/-- dummyfs_create_dir (dummyvfs.c lines 116-141): same shape with directory
mode and the libfs simple directory operations. -/
def dummyfs_create_dir (env : Nat → Bool) (s : BuildM) (name : String) :
    Option DTree × BuildM :=
  let (dok, s1) := newAlloc env s
  if dok then
    match dummyfs_make_inode env s1 (S_IFDIR ||| 0o755) Fops.simpleDirOps with
    | (some ino, s2) => (some (DTree.node name ino []), s2)
    | (none, s2) => (none, s2)
  else
    (none, s1)

/-- dummyfs_create_files (dummyvfs.c lines 174-188): zero both cells, create
"counter" under the root (return value ignored), create "subdir", and only if
that produced a dentry create "subcounter" below it.  No failure is reported
to the caller: the function returns whatever subset of children was built. -/
def dummyfs_create_files (env : Nat → Bool) (s : BuildM) :
    List DTree × FSState × BuildM :=
  let cells : FSState := ⟨0, 0⟩
  let (cf, s1) := dummyfs_create_file env s "counter" CellId.counter
  let (sd, s2) := dummyfs_create_dir env s1 "subdir"
  match sd with
  | some (DTree.node nm ino _) =>
    let (sc, s3) := dummyfs_create_file env s2 "subcounter" CellId.subcounter
    (optChildren cf ++ [DTree.node nm ino (optChildren sc)], cells, s3)
  | none => (optChildren cf, cells, s2)

/-- The modelled superblock of a completed mount: the magic value, the hashed
dentry tree below the root, and the two cells as create_files left them. -/
structure SuperBlock where
  magic : Nat
  root : DTree
  cells : FSState

/-- Outcome of dfs_fill_super: a published superblock, a negative errno, or a
crash (a null-pointer dereference inside the function). -/
inductive MountResult where
  | ok (sb : SuperBlock)
  | err (errno : Int)
  | crash

/-- True exactly when the mount reported success. -/
def MountResult.isOk : MountResult → Bool
  | MountResult.ok _ => true
  | _ => false

/-- dfs_fill_super (dummyvfs.c lines 200-247).  `inode_init_owner(&init_user_ns,
root, ...)` runs at line 218, before the `if(!root)` check at line 220, so a
failed root-inode allocation dereferences the null pointer.  If `d_make_root`
fails the root inode is iput and -ENOMEM is returned with nothing published.
Otherwise the function returns 0 regardless of what happened inside
dummyfs_create_files. -/
def dfs_fill_super (env : Nat → Bool) : MountResult :=
  let s0 : BuildM := ⟨0, 0⟩
  match dummyfs_make_inode env s0 (S_IFDIR ||| 0o755) Fops.simpleDirOps with
  | (none, _) => MountResult.crash
  | (some rootInode, s1) =>
    let (rdok, s2) := newAlloc env s1
    if rdok then
      let (children, cells, _) := dummyfs_create_files env s2
      MountResult.ok ⟨LFS_MAGIC, DTree.node "/" rootInode children, cells⟩
    else
      MountResult.err (-ENOMEM)

/-- The allocation environment in which every allocation succeeds. -/
def allocAlways : Nat → Bool := fun _ => true

/-- The allocation environment in which exactly the k-th allocation fails. -/
def allocFailAt (k : Nat) : Nat → Bool := fun n => decide (n ≠ k)

theorem wrap32_fixed {v : Int} (h1 : -2147483648 ≤ v) (h2 : v < 2147483648) :
    wrap32 v = v := by
  unfold wrap32; omega

theorem wrap32_inc_dec {v : Int} (h1 : -2147483648 ≤ v) (h2 : v < 2147483648) :
    wrap32 (wrap32 (v + 1) - 1) = v := by
  unfold wrap32; omega

theorem wrap32_inc_ne (v : Int) : wrap32 (v + 1) ≠ v := by
  unfold wrap32; omega

theorem serialize_length_pos (v : Int) : 0 < (serialize v).length := by
  simp [serialize]

/-- dfs_read_file unfolded into its three outcome branches. -/
theorem dfs_read_file_eq (cell : Int) (count offset : Nat) (copyFault : Bool) :
    dfs_read_file cell count offset copyFault =
      if (serialize (servedValue cell offset)).length < offset then
        ⟨0, [], postCell cell offset, offset⟩
      else if copyFault ∧ min count ((serialize (servedValue cell offset)).length - offset) ≠ 0 then
        ⟨-EFAULT, [], postCell cell offset, offset⟩
      else
        ⟨((min count ((serialize (servedValue cell offset)).length - offset) : Nat) : Int),
         ((serialize (servedValue cell offset)).drop offset).take
           (min count ((serialize (servedValue cell offset)).length - offset)),
         postCell cell offset,
         offset + min count ((serialize (servedValue cell offset)).length - offset)⟩ := rfl

theorem serialize_served_zero (cell : Int) : servedValue cell 0 = cell := by
  simp [servedValue]

/-- A successful read at offset 0 whose request covers the whole serialized
string returns the full decimal text of the cell and bumps the cell. -/
theorem read_zero_full (v : Int) (count : Nat) (h : (serialize v).length ≤ count) :
    dfs_read_file v count 0 false
      = ⟨((serialize v).length : Int), serialize v, wrap32 (v + 1), (serialize v).length⟩ := by
  rw [dfs_read_file_eq, serialize_served_zero]
  have hmin : min count ((serialize v).length - 0) = (serialize v).length := by omega
  simp [hmin, postCell, List.take_length]
  omega

/-- C1 counterexample: at cell value 2147483647 (INT_MAX) an offset-0 read
serves "2147483647\n" but `atomic_inc` wraps the cell to -2147483648, so the
next offset-0 read does not see v + 1. -/
theorem read_at_intmax_wraps :
    dfs_read_file 2147483647 20 0 false
      = ⟨11, "2147483647\n".data, -2147483648, 11⟩
    ∧ (-2147483648 : Int) ≠ 2147483647 + 1 := by decide

/-- C1 (amended): an offset-0 read whose request covers the serialized string
serves the decimal text of the pre-increment value v followed by a newline and
increments the cell modulo 2^32: the next offset-0 read sees v + 1 whenever
v < 2147483647, and -2147483648 when v = 2147483647; on a fresh mount with the
cell at 0 the returned text is "0\n" and the cell is left at 1. -/
theorem read_offset0_spec (v : Int) (count : Nat)
    (h1 : InRange32 v) (h2 : (serialize v).length ≤ count) :
    dfs_read_file v count 0 false
      = ⟨((serialize v).length : Int), serialize v, wrap32 (v + 1), (serialize v).length⟩
    ∧ wrap32 (v + 1) = (if v = 2147483647 then -2147483648 else v + 1)
    ∧ servedValue (wrap32 (v + 1)) 0 = wrap32 (v + 1)
    ∧ dfs_read_file 0 20 0 false = ⟨2, '0' :: '\n' :: [], 1, 2⟩ := by
  obtain ⟨hlo, hhi⟩ := h1
  refine ⟨read_zero_full v count h2, ?_, serialize_served_zero _, by decide⟩
  unfold wrap32
  split <;> omega

/-- C1 witness: reading a cell holding 5 serves "5\n" and leaves the cell
at 6. -/
theorem read_offset0_spec_witness :
    dfs_read_file 5 20 0 false = ⟨2, '5' :: '\n' :: [], 6, 2⟩
    ∧ dfs_read_file 0 20 0 false = ⟨2, '0' :: '\n' :: [], 1, 2⟩ :=
  ⟨(read_offset0_spec 5 20 (by decide) (by decide)).1.trans (by decide),
   (read_offset0_spec 5 20 (by decide) (by decide)).2.2.2⟩

/-- C2 counterexample: when the allocation of the "counter" dentry (the third
allocation, index 2) fails, dfs_fill_super still reports success and publishes
a tree that lacks /counter: no rollback of the mount and no error. -/
theorem mount_succeeds_despite_failed_alloc :
    allocFailAt 2 2 = false
    ∧ dfs_fill_super (allocFailAt 2) = MountResult.ok
      ⟨LFS_MAGIC,
       DTree.node "/" ⟨S_IFDIR ||| 0o755, Fops.simpleDirOps, 0, none⟩
         [DTree.node "subdir" ⟨S_IFDIR ||| 0o755, Fops.simpleDirOps, 1, none⟩
            [DTree.node "subcounter" ⟨S_IFREG ||| 0o644, Fops.dummyfsFileOps, 2,
               some CellId.subcounter⟩ []]],
       ⟨0, 0⟩⟩ :=
  ⟨rfl, rfl⟩

/-- C2 (amended): only a d_make_root failure makes the mount fail cleanly, with
the root inode released and -ENOMEM surfaced and nothing published; a failed
root-inode allocation is a null dereference (inode_init_owner runs before the
null check); and once the root inode and root dentry exist the mount reports
success whatever happens inside dummyfs_create_files, e.g. when the "subdir"
dentry allocation (index 4) fails the partial tree holding only /counter is
published. -/
theorem mount_alloc_failure_behavior :
    dfs_fill_super (allocFailAt 0) = MountResult.crash
    ∧ (∀ env : Nat → Bool, env 0 = true → env 1 = false →
        dfs_fill_super env = MountResult.err (-ENOMEM))
    ∧ (∀ env : Nat → Bool, env 0 = true → env 1 = true →
        (dfs_fill_super env).isOk = true)
    ∧ dfs_fill_super (allocFailAt 4) = MountResult.ok
      ⟨LFS_MAGIC,
       DTree.node "/" ⟨S_IFDIR ||| 0o755, Fops.simpleDirOps, 0, none⟩
         [DTree.node "counter" ⟨S_IFREG ||| 0o644, Fops.dummyfsFileOps, 1,
            some CellId.counter⟩ []],
       ⟨0, 0⟩⟩ := by
  refine ⟨rfl, ?_, ?_, rfl⟩
  · intro env h0 h1
    simp [dfs_fill_super, dummyfs_make_inode, newAlloc, h0, h1]
  · intro env h0 h1
    simp only [dfs_fill_super, dummyfs_make_inode, newAlloc, h0, h1, if_true]
    rcases dummyfs_create_files env ⟨2, 1⟩ with ⟨children, cells, s3⟩
    rfl

/-- C2 witness: with the second allocation (d_make_root) failing the mount
returns -ENOMEM, and with every allocation succeeding it reports success. -/
theorem mount_alloc_failure_behavior_witness :
    dfs_fill_super (allocFailAt 1) = MountResult.err (-ENOMEM)
    ∧ (dfs_fill_super allocAlways).isOk = true :=
  ⟨mount_alloc_failure_behavior.2.1 (allocFailAt 1) rfl rfl,
   mount_alloc_failure_behavior.2.2.1 allocAlways rfl rfl⟩

/-- C7 counterexample: when the "subcounter" dentry allocation (index 6) fails,
the mount still reports success, but the tree it publishes has an empty
"subdir" and so is not the exact three-entry tree the claim requires of every
successful mount. -/
theorem successful_mount_with_partial_tree :
    (dfs_fill_super (allocFailAt 6)).isOk = true
    ∧ allocFailAt 6 6 = false
    ∧ dfs_fill_super (allocFailAt 6) = MountResult.ok
        ⟨LFS_MAGIC,
         DTree.node "/" ⟨S_IFDIR ||| 0o755, Fops.simpleDirOps, 0, none⟩
           [DTree.node "counter" ⟨S_IFREG ||| 0o644, Fops.dummyfsFileOps, 1,
              some CellId.counter⟩ [],
            DTree.node "subdir" ⟨S_IFDIR ||| 0o755, Fops.simpleDirOps, 2, none⟩ []],
         ⟨0, 0⟩⟩
    ∧ dfs_fill_super (allocFailAt 6) ≠ MountResult.ok
        ⟨LFS_MAGIC,
         DTree.node "/" ⟨S_IFDIR ||| 0o755, Fops.simpleDirOps, 0, none⟩
           [DTree.node "counter" ⟨S_IFREG ||| 0o644, Fops.dummyfsFileOps, 1,
              some CellId.counter⟩ [],
            DTree.node "subdir" ⟨S_IFDIR ||| 0o755, Fops.simpleDirOps, 2, none⟩
              [DTree.node "subcounter" ⟨S_IFREG ||| 0o644, Fops.dummyfsFileOps, 3,
                 some CellId.subcounter⟩ []]],
         ⟨0, 0⟩⟩ := by
  refine ⟨rfl, rfl, rfl, ?_⟩
  intro h
  rw [show dfs_fill_super (allocFailAt 6) = MountResult.ok
        ⟨LFS_MAGIC,
         DTree.node "/" ⟨S_IFDIR ||| 0o755, Fops.simpleDirOps, 0, none⟩
           [DTree.node "counter" ⟨S_IFREG ||| 0o644, Fops.dummyfsFileOps, 1,
              some CellId.counter⟩ [],
            DTree.node "subdir" ⟨S_IFDIR ||| 0o755, Fops.simpleDirOps, 2, none⟩ []],
         ⟨0, 0⟩⟩ from rfl] at h
  simp at h

/-- C7 (amended): after a mount in which every allocation succeeds, the
published superblock has magic 0x11223344 and its tree is exactly: the root
directory (mode 0755) with child "counter" (regular file, mode 0644, bound to
the counter cell), child "subdir" (directory, mode 0755), and below it
"subcounter" (regular file, mode 0644, bound to the distinct subcounter cell);
both cells are initialized to 0.  (A mount that reports success after an
ignored allocation failure may publish a strict subset of this tree.) -/
theorem mount_tree_shape :
    dfs_fill_super allocAlways = MountResult.ok
      ⟨LFS_MAGIC,
       DTree.node "/" ⟨S_IFDIR ||| 0o755, Fops.simpleDirOps, 0, none⟩
         [DTree.node "counter" ⟨S_IFREG ||| 0o644, Fops.dummyfsFileOps, 1,
            some CellId.counter⟩ [],
          DTree.node "subdir" ⟨S_IFDIR ||| 0o755, Fops.simpleDirOps, 2, none⟩
            [DTree.node "subcounter" ⟨S_IFREG ||| 0o644, Fops.dummyfsFileOps, 3,
               some CellId.subcounter⟩ []]],
       ⟨0, 0⟩⟩
    ∧ LFS_MAGIC = 0x11223344
    ∧ CellId.counter ≠ CellId.subcounter :=
  ⟨rfl, rfl, by decide⟩

/-- C3 counterexample: at cell value -2147483648 (INT_MIN) a continuation read
serves the `int`-wrapped value 2147483647, not v - 1: the decrement `v -= 1`
wraps, so the bytes delivered come from "2147483647\n". -/
theorem continuation_at_intmin_wraps :
    servedValue (-2147483648) 1 = 2147483647
    ∧ (2147483647 : Int) ≠ -2147483648 - 1
    ∧ dfs_read_file (-2147483648) 20 1 false
        = ⟨10, "147483647\n".data, -2147483648, 11⟩ := by decide

/-- C3 (amended): a read at offset > 0 leaves the cell untouched and encodes
the 32-bit wrap of v - 1 (equal to v - 1 whenever v > -2147483648); and an
offset-0 read of a cell holding v followed by a read at the returned length
delivers exactly the remaining bytes of the serialization of the same logical
value v, the two calls together leaving the cell at the single increment
wrap32 (v + 1). -/
theorem read_continuation_spec (v : Int) (count1 count2 : Nat)
    (h1 : InRange32 v) (hc : 0 < count1) :
    (∀ (cell : Int) (count offset : Nat) (cf : Bool), 0 < offset →
      (dfs_read_file cell count offset cf).cell = cell
      ∧ servedValue cell offset = wrap32 (cell - 1))
    ∧ dfs_read_file v count1 0 false
        = ⟨((min count1 (serialize v).length : Nat) : Int),
           (serialize v).take (min count1 (serialize v).length),
           wrap32 (v + 1), min count1 (serialize v).length⟩
    ∧ dfs_read_file (wrap32 (v + 1)) count2 (min count1 (serialize v).length) false
        = ⟨((min count2 ((serialize v).length - min count1 (serialize v).length) : Nat) : Int),
           ((serialize v).drop (min count1 (serialize v).length)).take
             (min count2 ((serialize v).length - min count1 (serialize v).length)),
           wrap32 (v + 1),
           min count1 (serialize v).length
             + min count2 ((serialize v).length - min count1 (serialize v).length)⟩
    ∧ (serialize v).take (min count1 (serialize v).length)
        ++ ((serialize v).drop (min count1 (serialize v).length)).take
             (min count2 ((serialize v).length - min count1 (serialize v).length))
      = (serialize v).take (min count1 (serialize v).length
             + min count2 ((serialize v).length - min count1 (serialize v).length)) := by
  obtain ⟨hlo, hhi⟩ := h1
  refine ⟨?_, ?_, ?_, (List.take_add _ _ _).symm⟩
  · intro cell count offset cf hoff
    constructor
    · rw [dfs_read_file_eq]
      split
      · simp [postCell, hoff]
      · split <;> simp [postCell, hoff]
    · simp [servedValue, hoff]
  · rw [dfs_read_file_eq, serialize_served_zero]
    simp [postCell]
  · have hn1 : 0 < min count1 (serialize v).length :=
      lt_min hc (serialize_length_pos v)
    have hle : min count1 (serialize v).length ≤ (serialize v).length :=
      Nat.min_le_right _ _
    have hserved : servedValue (wrap32 (v + 1)) (min count1 (serialize v).length) = v := by
      rw [servedValue, if_pos hn1, wrap32_inc_dec hlo hhi]
    rw [dfs_read_file_eq, hserved]
    rw [if_neg (Nat.not_lt.mpr hle)]
    simp [postCell, hn1]

/-- C3 witness: a first read of one byte from a cell holding 5 returns '5' and
bumps the cell to 6; the continuation read at offset 1 returns the remaining
'\n' of the same logical value 5 and leaves the cell at 6. -/
theorem read_continuation_spec_witness :
    dfs_read_file 5 1 0 false = ⟨1, '5' :: [], 6, 1⟩
    ∧ dfs_read_file 6 20 1 false = ⟨1, '\n' :: [], 6, 2⟩ :=
  ⟨(read_continuation_spec 5 1 20 (by decide) (by decide)).2.1.trans (by decide),
   (read_continuation_spec 5 1 20 (by decide) (by decide)).2.2.1.trans (by decide)⟩

/-- C4 counterexample: writing the ten digits "9999999999" is accepted in full
(return 10) but the cell receives the `int` truncation 1410065407 of the parsed
long, not the parsed value 9999999999. -/
theorem write_large_value_truncates :
    dfs_write_file 0 "9999999999".data 0 false = ⟨10, 1410065407, 0⟩
    ∧ simple_strtol "9999999999".data = 9999999999
    ∧ (1410065407 : Int) ≠ 9999999999 := by decide

/-- C4 (amended): a write at offset 0 shorter than the 20-byte buffer with a
successful copy parses the input leniently as a base-10 signed integer and
stores its 32-bit truncation wrap32 (equal to the parsed value whenever that
value is in the 32-bit signed range), returning the full input length; parsing
stops at the first non-digit, e.g. "12x7" stores 12 yet returns 4. -/
theorem write_parse_store_spec (cell : Int) (input : List Char)
    (h : input.length < TMPSIZE) :
    dfs_write_file cell input 0 false
      = ⟨(input.length : Int), wrap32 (simple_strtol input), 0⟩
    ∧ (InRange32 (simple_strtol input) →
        wrap32 (simple_strtol input) = simple_strtol input)
    ∧ dfs_write_file 0 ('1' :: '2' :: 'x' :: '7' :: []) 0 false = ⟨4, 12, 0⟩ := by
  refine ⟨?_, fun hr => wrap32_fixed hr.1 hr.2, by decide⟩
  unfold dfs_write_file
  simp [Nat.not_le.mpr h]

/-- C4 witness: writing "42" to a cell holding 7 stores 42 and returns 2. -/
theorem write_parse_store_spec_witness :
    dfs_write_file 7 ('4' :: '2' :: []) 0 false = ⟨2, 42, 0⟩ :=
  (write_parse_store_spec 7 ('4' :: '2' :: []) (by decide)).1.trans (by decide)

/-- C5: a write at nonzero offset fails with -EINVAL (the code of
IOError::InvalidOffset) and a write of 20 bytes or more fails with -EINVAL
(the code of IOError::InvalidArgument); in both cases the cell and the file
position are unchanged. -/
theorem write_invalid_spec (cell : Int) (input : List Char) (offset : Nat) (cf : Bool) :
    (offset ≠ 0 → dfs_write_file cell input offset cf = ⟨-EINVAL, cell, offset⟩)
    ∧ (TMPSIZE ≤ input.length →
        dfs_write_file cell input offset cf = ⟨-EINVAL, cell, offset⟩) := by
  constructor
  · intro h
    unfold dfs_write_file
    rw [if_pos h]
  · intro h
    unfold dfs_write_file
    by_cases ho : offset ≠ 0
    · rw [if_pos ho]
    · rw [if_neg ho, if_pos h]

/-- C5 witness: a write at offset 1 and a 20-byte write at offset 0 both fail
with -EINVAL and leave the cell at 5. -/
theorem write_invalid_spec_witness :
    dfs_write_file 5 ('7' :: []) 1 false = ⟨-EINVAL, 5, 1⟩
    ∧ dfs_write_file 5 "12345678901234567890".data 0 false = ⟨-EINVAL, 5, 0⟩ :=
  ⟨(write_invalid_spec 5 ('7' :: []) 1 false).1 (by decide),
   (write_invalid_spec 5 "12345678901234567890".data 0 false).2 (by decide)⟩

/-- C6: relative to the serialized decimal-plus-newline string of the logical
value, a read at or beyond its length returns zero bytes; below it, exactly
min(count, length - offset) bytes starting at the offset are returned, and a
copy failure on a nonempty window surfaces -EFAULT (IOError::CopyFault). -/
theorem read_window_spec (cell : Int) (count offset : Nat) (cf : Bool) :
    ((serialize (servedValue cell offset)).length ≤ offset →
      dfs_read_file cell count offset cf = ⟨0, [], postCell cell offset, offset⟩)
    ∧ (cf = false → offset < (serialize (servedValue cell offset)).length →
        dfs_read_file cell count offset cf
          = ⟨((min count ((serialize (servedValue cell offset)).length - offset) : Nat) : Int),
             ((serialize (servedValue cell offset)).drop offset).take
               (min count ((serialize (servedValue cell offset)).length - offset)),
             postCell cell offset,
             offset + min count ((serialize (servedValue cell offset)).length - offset)⟩)
    ∧ (cf = true → offset < (serialize (servedValue cell offset)).length →
        0 < min count ((serialize (servedValue cell offset)).length - offset) →
        (dfs_read_file cell count offset cf).ret = -EFAULT) := by
  rw [dfs_read_file_eq]
  refine ⟨?_, ?_, ?_⟩
  · intro h
    by_cases hlt : (serialize (servedValue cell offset)).length < offset
    · rw [if_pos hlt]
    · rw [if_neg hlt]
      have hmin : min count ((serialize (servedValue cell offset)).length - offset) = 0 := by
        omega
      simp [hmin]
  · intro hcf hlt
    subst hcf
    rw [if_neg (Nat.not_lt.mpr (Nat.le_of_lt hlt))]
    simp
  · intro hcf hlt hmin
    subst hcf
    rw [if_neg (Nat.not_lt.mpr (Nat.le_of_lt hlt)),
        if_pos ⟨rfl, Nat.pos_iff_ne_zero.mp hmin⟩]

/-- C6 witness: with the cell at 1 a continuation read at offset 2 hits the end
of "0\n" and returns zero bytes; at offset 1 it returns the single remaining
byte; a faulted copy of that byte returns -EFAULT. -/
theorem read_window_spec_witness :
    dfs_read_file 1 20 2 true = ⟨0, [], 1, 2⟩
    ∧ dfs_read_file 1 5 1 false = ⟨1, '\n' :: [], 1, 2⟩
    ∧ (dfs_read_file 1 5 1 true).ret = -EFAULT :=
  ⟨((read_window_spec 1 20 2 true).1 (by decide)).trans (by decide),
   ((read_window_spec 1 5 1 false).2.1 rfl (by decide)).trans (by decide),
   (read_window_spec 1 5 1 true).2.2 rfl (by decide) (by decide)⟩

theorem getCell_setCell_self (fs : FSState) (c : CellId) (v : Int) :
    getCell (setCell fs c v) c = v := by
  cases c <;> rfl

theorem getCell_setCell_other (fs : FSState) {c c2 : CellId} (v : Int) (h : c2 ≠ c) :
    getCell (setCell fs c2 v) c = getCell fs c := by
  cases c <;> cases c2 <;> first | rfl | exact absurd rfl h

/-- The new value of the cell a request was issued against, as a function of
its old value alone. -/
def opNewCell (x : Int) : Op → Int
  | Op.read count offset cf => (dfs_read_file x count offset cf).cell
  | Op.write input offset cf => (dfs_write_file x input offset cf).cell

theorem applyOp_eq (fs : FSState) (c : CellId) (op : Op) :
    applyOp fs (c, op) = setCell fs c (opNewCell (getCell fs c) op) := by
  cases op <;> rfl

/-- The view of one cell through a request sequence depends only on the view of
that cell at the start. -/
theorem runOps_view (c : CellId) (ops : List (CellId × Op)) :
    ∀ (fs1 fs2 : FSState), getCell fs1 c = getCell fs2 c →
      getCell (runOps fs1 ops) c = getCell (runOps fs2 ops) c := by
  induction ops with
  | nil => intro fs1 fs2 h; exact h
  | cons p rest ih =>
    intro fs1 fs2 h
    obtain ⟨c2, op⟩ := p
    show getCell (runOps (applyOp fs1 (c2, op)) rest) c
        = getCell (runOps (applyOp fs2 (c2, op)) rest) c
    apply ih
    by_cases hc : c2 = c
    · subst hc
      rw [applyOp_eq, applyOp_eq, getCell_setCell_self, getCell_setCell_self, h]
    · rw [applyOp_eq, applyOp_eq, getCell_setCell_other _ _ hc,
          getCell_setCell_other _ _ hc, h]

/-- Requests bound to other cells can be erased without changing the view of a
cell. -/
theorem runOps_filter (c : CellId) (ops : List (CellId × Op)) :
    ∀ fs : FSState,
      getCell (runOps fs ops) c
        = getCell (runOps fs (ops.filter (fun p => decide (p.1 = c)))) c := by
  induction ops with
  | nil => intro fs; rfl
  | cons p rest ih =>
    intro fs
    obtain ⟨c2, op⟩ := p
    by_cases hc : c2 = c
    · rw [List.filter_cons, if_pos (by simp [hc])]
      show getCell (runOps (applyOp fs (c2, op)) rest) c
          = getCell (runOps (applyOp fs (c2, op)) (rest.filter (fun p => decide (p.1 = c)))) c
      exact ih (applyOp fs (c2, op))
    · rw [List.filter_cons, if_neg (by simp [hc])]
      show getCell (runOps (applyOp fs (c2, op)) rest) c
          = getCell (runOps fs (rest.filter (fun p => decide (p.1 = c)))) c
      rw [ih (applyOp fs (c2, op))]
      exact runOps_view c _ _ _ (by rw [applyOp_eq, getCell_setCell_other _ _ hc])

/-- C8: the two cells are distinct; a single request (read or write, faulting
or not) through a handle bound to one cell never changes the other cell; and
over any request sequence the final value of a cell equals the value obtained
by running only the requests bound to that cell. -/
theorem cells_independent :
    CellId.counter ≠ CellId.subcounter
    ∧ (∀ (fs : FSState) (c c2 : CellId) (op : Op), c2 ≠ c →
        getCell (applyOp fs (c2, op)) c = getCell fs c)
    ∧ (∀ (fs : FSState) (ops : List (CellId × Op)) (c : CellId),
        getCell (runOps fs ops) c
          = getCell (runOps fs (ops.filter (fun p => decide (p.1 = c)))) c) := by
  refine ⟨by decide, ?_, ?_⟩
  · intro fs c c2 op h
    rw [applyOp_eq, getCell_setCell_other _ _ h]
  · intro fs ops c
    exact runOps_filter c ops fs

/-- C8 witness: a write of "9" through the subcounter handle leaves the counter
cell at 3. -/
theorem cells_independent_witness :
    getCell (applyOp ⟨3, 4⟩ (CellId.subcounter, Op.write ('9' :: []) 0 false))
        CellId.counter = getCell (⟨3, 4⟩ : FSState) CellId.counter :=
  cells_independent.2.1 ⟨3, 4⟩ CellId.counter CellId.subcounter
    (Op.write ('9' :: []) 0 false) (by decide)

/-- C9 counterexample: at cell value 2147483647 (INT_MAX) a faulted offset-0
read leaves the cell wrapped to -2147483648, and the subsequent successful
offset-0 read serves "-2147483648\n", which is not the text of v + 1. -/
theorem copyfault_at_intmax :
    dfs_read_file 2147483647 20 0 true = ⟨-14, [], -2147483648, 0⟩
    ∧ (dfs_read_file (-2147483648) 20 0 false).data = "-2147483648\n".data
    ∧ "-2147483648\n".data ≠ "2147483648\n".data := by decide

/-- C9 (amended): an offset-0 read with a nonzero request that fails with
-EFAULT has already incremented the cell modulo 2^32 (the side effect is not
rolled back), so a subsequent successful offset-0 read serves wrap32 (v + 1)
(= v + 1 whenever v < 2147483647), which differs from v. -/
theorem copyfault_increments_spec (v : Int) (count count2 : Nat)
    (_h1 : InRange32 v) (hc : count ≠ 0)
    (h2 : (serialize (wrap32 (v + 1))).length ≤ count2) :
    dfs_read_file v count 0 true = ⟨-EFAULT, [], wrap32 (v + 1), 0⟩
    ∧ (dfs_read_file (wrap32 (v + 1)) count2 0 false).data = serialize (wrap32 (v + 1))
    ∧ wrap32 (v + 1) ≠ v := by
  refine ⟨?_, ?_, wrap32_inc_ne v⟩
  · rw [dfs_read_file_eq, serialize_served_zero]
    have hpos := serialize_length_pos v
    have hmin : min count ((serialize v).length - 0) ≠ 0 := by omega
    rw [if_neg (by omega), if_pos ⟨rfl, hmin⟩]
    simp [postCell]
  · rw [read_zero_full (wrap32 (v + 1)) count2 h2]

/-- C9 witness: a faulted read of a cell holding 0 still bumps it to 1, and the
next successful read serves "1\n". -/
theorem copyfault_increments_spec_witness :
    dfs_read_file 0 5 0 true = ⟨-14, [], 1, 0⟩
    ∧ (dfs_read_file 1 20 0 false).data = '1' :: '\n' :: [] := by
  have h := copyfault_increments_spec 0 5 20 (by decide) (by decide) (by decide)
  exact ⟨h.1.trans (by decide), h.2.1.trans (by decide)⟩

/-- C10: every non-failing read advances the file position by exactly the
number of bytes returned (zero included) and returns that byte count; a read
failing with -EFAULT leaves the position unchanged (and delivered nothing);
and a write never modifies the position it was given. -/
theorem read_offset_advance_spec (cell : Int) (count offset : Nat) (cf : Bool) :
    (0 ≤ (dfs_read_file cell count offset cf).ret →
      (dfs_read_file cell count offset cf).offset
          = offset + (dfs_read_file cell count offset cf).data.length
      ∧ (dfs_read_file cell count offset cf).ret
          = ((dfs_read_file cell count offset cf).data.length : Int))
    ∧ ((dfs_read_file cell count offset cf).ret < 0 →
        (dfs_read_file cell count offset cf).offset = offset
        ∧ (dfs_read_file cell count offset cf).data = [])
    ∧ (∀ input : List Char, (dfs_write_file cell input offset cf).offset = offset) := by
  rw [dfs_read_file_eq]
  refine ⟨?_, ?_, ?_⟩
  · split
    · intro _
      exact ⟨by simp, by simp⟩
    · split
      · intro hret
        have h2 : (0 : Int) ≤ -EFAULT := hret
        norm_num [EFAULT] at h2
      · intro _
        refine ⟨?_, ?_⟩ <;>
          · simp only [List.length_take, List.length_drop]
            omega
  · split
    · intro hret
      have h2 : (0 : Int) < 0 := hret
      omega
    · split
      · intro _
        exact ⟨rfl, rfl⟩
      · intro hret
        have h2 : ((min count ((serialize (servedValue cell offset)).length - offset) : Nat) : Int)
            < 0 := hret
        omega
  · intro input
    unfold dfs_write_file
    split
    · rfl
    · split
      · rfl
      · split <;> rfl

/-- C10 witness: a full successful read advances the position from 0 by the two
bytes returned, and a write leaves the position at 0. -/
theorem read_offset_advance_spec_witness :
    ((dfs_read_file 0 20 0 false).offset
        = 0 + (dfs_read_file 0 20 0 false).data.length
      ∧ (dfs_read_file 0 20 0 false).ret
        = ((dfs_read_file 0 20 0 false).data.length : Int))
    ∧ (dfs_write_file 0 ('5' :: []) 0 false).offset = 0 :=
  ⟨(read_offset_advance_spec 0 20 0 false).1 (by decide),
   (read_offset_advance_spec 0 20 0 false).2.2 ('5' :: [])⟩
